import Mathlib

/-!
# Verification of the Traffic-Light-and-Enjoy junction system

A shallow embedding of the repository's data model and of the operations the
claims refer to:

* `utils/` data model (`RoadEnum`, `TrafficLight`, `Road`, `Lane`, `Car`,
  `Junction`),
* `algo/TrafficLightsCombinator.py` (phase enumeration and the pairwise
  non-conflict predicates),
* `algo/Algorithms/SmartTrafficController.py` (phase scores, hysteresis),
* `algo/Algorithms/VolumeBasedController.py` (volume scores, activation),
* `sim/Sim.py` (kinematic model, collision predicate, failure handling).

Python floats are modelled as rationals; machine integers are `Nat`
(the source only uses small non-negative IDs).  Fallible lookups
(`get_road_by_id`, `get_traffic_light_by_id`) return `Option`; where the
source would raise on a missing object the embedding takes an explicitly
marked default that is unreachable under the hypotheses of the theorems.
-/

namespace TrafficSim

/-- `utils/RoadEnum.py`: cardinal directions, with values N=0, E=1, S=2, W=3. -/
inductive RoadEnum where
  | NORTH
  | EAST
  | SOUTH
  | WEST
deriving DecidableEq, Repr

/-- The `.value` of a `RoadEnum` member. -/
def RoadEnum.val : RoadEnum → Nat
  | .NORTH => 0
  | .EAST => 1
  | .SOUTH => 2
  | .WEST => 3

/-- `utils/Car.py`: a vehicle.  Only the fields the claims touch are kept
(`is_turning`, `turn_end`, `half_turn`, `angle` are UI-only). -/
structure Car where
  id : Nat
  dist : ℚ
  velocity : ℚ
  dest : Nat
  origin : Nat
deriving DecidableEq, Repr

/-- `utils/TrafficLight.py`: a light with origin and destination lane IDs and a
boolean state (`True` = green).

The `isYellow` field and its accessors `get_is_yellow` / `set_is_yellow` are
called by `sim/Sim.py` but absent from `utils/TrafficLight.py`.
Modelled from the spec: the transient flag `in_amber`, true during the
smoothing interval after a state change; during amber the light is treated as
RED by the kinematic model. -/
structure TrafficLight where
  id : Nat
  origins : List Nat
  destinations : List Nat
  state : Bool
  isYellow : Bool
deriving DecidableEq, Repr

/-- `utils/Lane.py`: a lane with cars and kinematic parameters.
`LENGTH` is `length` here, `max_vel` is `maxVel`. -/
structure Lane where
  id : Nat
  cars : List Car
  carCreation : ℚ
  length : ℚ
  maxVel : ℚ
deriving DecidableEq, Repr

/-- `Lane.max_decel = max_vel * 3` (computed in `Lane.__init__`). -/
def Lane.maxDecel (l : Lane) : ℚ := l.maxVel * 3

/-- `Lane.max_accel = max_vel * 2` (computed in `Lane.__init__`). -/
def Lane.maxAccel (l : Lane) : ℚ := l.maxVel * 2

/-- `utils/Road.py`: a road with lanes and compass orientation.  The source
allows `from_side`/`to_side` to be `None` and raises on use; the claims only
concern junctions where both sides are set, so they are total here. -/
structure Road where
  id : Nat
  lanes : List Lane
  fromSide : RoadEnum
  toSide : RoadEnum
deriving DecidableEq, Repr

/-- `utils/Junction.py`: roads plus traffic lights. -/
structure Junction where
  id : Nat
  trafficLights : List TrafficLight
  roads : List Road
deriving DecidableEq, Repr

/-- `Junction.get_road_by_id`: first road with the given ID, `None` if absent. -/
def Junction.getRoadById (j : Junction) (roadId : Nat) : Option Road :=
  j.roads.find? (fun r => r.id == roadId)

/-- `Junction.get_traffic_light_by_id`: first light with the given ID. -/
def Junction.getTrafficLightById (j : Junction) (lightId : Nat) : Option TrafficLight :=
  j.trafficLights.find? (fun tl => tl.id == lightId)

/-- The IDs of the junction's lights, in order. -/
def Junction.lightIds (j : Junction) : List Nat :=
  j.trafficLights.map (fun tl => tl.id)

/-- `from_side` of the road found by `get_road_by_id`.  On a missing road the
source raises `AttributeError`; the `.NORTH` default is unreachable under the
road-presence hypotheses of the theorems below. -/
def Junction.roadFromSideD (j : Junction) (roadId : Nat) : RoadEnum :=
  match j.getRoadById roadId with
  | some r => r.fromSide
  | none => RoadEnum.NORTH

/-- `to_side` of the road found by `get_road_by_id`; same default convention
as `Junction.roadFromSideD`. -/
def Junction.roadToSideD (j : Junction) (roadId : Nat) : RoadEnum :=
  match j.getRoadById roadId with
  | some r => r.toSide
  | none => RoadEnum.NORTH

end TrafficSim

namespace TrafficSim

/-! ## `algo/TrafficLightsCombinator.py` -/

namespace Combinator

/-- `tl.origins[0] // 10`: the road ID of a light's (first) origin lane.  The
source indexes `origins[0]` and raises on an empty list; the `headD 0` default
is unreachable when `origins ≠ []`. -/
def originRoadId (tl : TrafficLight) : Nat :=
  tl.origins.headD 0 / 10

/-- `TrafficLightsCombinator.not_entering_the_same_road`: `False` exactly when
the two origin roads differ and some destination road is shared. -/
def notEnteringTheSameRoad (tl1 tl2 : TrafficLight) : Bool :=
  !(decide (originRoadId tl1 ≠ originRoadId tl2) &&
    tl1.destinations.any (fun d1 =>
      tl2.destinations.any (fun d2 => d1 / 10 == d2 / 10)))

/-- `check_if_continue_straight`: some destination side is opposite the origin
side (values summing even). -/
def checkIfContinueStraight (fromSide : RoadEnum) (toSides : List RoadEnum) : Bool :=
  toSides.any (fun toSide => (fromSide.val + toSide.val) % 2 == 0)

/-- One movement of `check_if_turn_left`: N→E, W→N, S→W or E→S. -/
def leftPair (fromSide toSide : RoadEnum) : Bool :=
  match fromSide, toSide with
  | .NORTH, .EAST => true
  | .WEST, .NORTH => true
  | .SOUTH, .WEST => true
  | .EAST, .SOUTH => true
  | _, _ => false

/-- `check_if_turn_left`: some destination side forms a left turn. -/
def checkIfTurnLeft (fromSide : RoadEnum) (toSides : List RoadEnum) : Bool :=
  toSides.any (fun toSide => leftPair fromSide toSide)

/-- `check_if_turn_only_right`: no destination side violates the four
right-turn conditionals of the source. -/
def checkIfTurnOnlyRight (fromSide : RoadEnum) (toSides : List RoadEnum) : Bool :=
  toSides.all (fun toSide =>
    !(fromSide == RoadEnum.WEST && toSide != RoadEnum.SOUTH) &&
    !(fromSide == RoadEnum.SOUTH && toSide != RoadEnum.EAST) &&
    !(fromSide == RoadEnum.EAST && toSide != RoadEnum.NORTH) &&
    !(fromSide == RoadEnum.NORTH && toSide != RoadEnum.WEST))

/-- `to_side` of every destination road of a light
(`[junction.get_road_by_id(lane_id // 10).get_to_side() for lane_id in destinations]`). -/
def toSidesDest (j : Junction) (tl : TrafficLight) : List RoadEnum :=
  tl.destinations.map (fun laneId => j.roadToSideD (laneId / 10))

/-- `TrafficLightsCombinator.not_intersect_on_straight`. -/
def notIntersectOnStraight (j : Junction) (tl1 tl2 : TrafficLight) : Bool :=
  let fromSide1 := j.roadFromSideD (originRoadId tl1)
  let fromSide2 := j.roadFromSideD (originRoadId tl2)
  if (fromSide1.val + fromSide2.val) % 2 == 1 then
    !(checkIfContinueStraight fromSide1 (toSidesDest j tl1) &&
      checkIfContinueStraight fromSide2 (toSidesDest j tl2))
  else
    true

/-- `TrafficLightsCombinator.not_intersect_on_turn_left`. -/
def notIntersectOnTurnLeft (j : Junction) (tl1 tl2 : TrafficLight) : Bool :=
  let fromSide1 := j.roadFromSideD (originRoadId tl1)
  let fromSide2 := j.roadFromSideD (originRoadId tl2)
  let toSides1 := toSidesDest j tl1
  let toSides2 := toSidesDest j tl2
  if checkIfTurnLeft fromSide1 toSides1 then
    fromSide1 == fromSide2 || checkIfTurnOnlyRight fromSide2 toSides2
  else if checkIfTurnLeft fromSide2 toSides2 then
    fromSide1 == fromSide2 || checkIfTurnOnlyRight fromSide1 toSides1
  else
    true

/-- The conjunction tested in `calculate_possible_active_lights` for a pair of
lights (the pairwise non-conflict predicate). -/
def pairNonConflict (j : Junction) (tl1 tl2 : TrafficLight) : Bool :=
  notEnteringTheSameRoad tl1 tl2 &&
  notIntersectOnStraight j tl1 tl2 &&
  notIntersectOnTurnLeft j tl1 tl2

/-- The non-conflict predicate on light IDs: both IDs resolve through
`get_traffic_light_by_id` and the resolved lights are non-conflicting. -/
def idPairNonConflict (j : Junction) (a b : Nat) : Bool :=
  match j.getTrafficLightById a, j.getTrafficLightById b with
  | some tl1, some tl2 => pairNonConflict j tl1 tl2
  | _, _ => false

/-- `defaultdict(list)` update: append `v` to the entry of `k`, creating the
entry at the end on first use (Python dicts preserve insertion order). -/
def addEntry (m : List (Nat × List Nat)) (k v : Nat) : List (Nat × List Nat) :=
  match m with
  | [] => [(k, [v])]
  | (k0, vs) :: rest =>
    if k0 == k then (k0, vs ++ [v]) :: rest else (k0, vs) :: addEntry rest k v

/-- The double loop of `calculate_possible_active_lights`: for every ordered
pair of lights satisfying the three predicates, append `tl2.id` to the entry
of `tl1.id`. -/
def possibleCombinationsRaw (j : Junction) : List (Nat × List Nat) :=
  j.trafficLights.foldl
    (fun m tl1 =>
      j.trafficLights.foldl
        (fun m tl2 =>
          if pairNonConflict j tl1 tl2 then addEntry m tl1.id tl2.id else m)
        m)
    []

/-- Self-removal: `if key in value: value.remove(key)` (first occurrence). -/
def possibleCombinations (j : Junction) : List (Nat × List Nat) :=
  (possibleCombinationsRaw j).map (fun p => (p.1, p.2.erase p.1))

/-- `defaultdict` read access `possible_combinations[key]`: the stored list,
or `[]` when the key is absent. -/
def lookupD (m : List (Nat × List Nat)) (k : Nat) : List Nat :=
  match m.find? (fun p => p.1 == k) with
  | some p => p.2
  | none => []

/-- List-as-set inclusion test (`set(s).issubset(set(t))`). -/
def subsetB (s t : List Nat) : Bool :=
  s.all (fun x => t.contains x)

/-- Helper of `dedupFirst`: drop every element already seen. -/
def dedupFirstAux : List (List Nat) → List (List Nat) → List (List Nat)
  | [], _ => []
  | x :: xs, seen =>
    if x ∈ seen then dedupFirstAux xs seen else x :: dedupFirstAux xs (x :: seen)

/-- Keep the first occurrence of every element (`list(set(xs))` in the source;
the iteration order of a Python set is unspecified, and no theorem below
depends on the order chosen here). -/
def dedupFirst (l : List (List Nat)) : List (List Nat) :=
  dedupFirstAux l []

/-- `{item} | set(relations)` for one entry of the possible-combinations
dict, as a duplicate-free list. -/
def itemSetOf (p : Nat × List Nat) : List Nat :=
  (p.1 :: p.2).dedup

/-- The `item_sets` list of `find_max_combinations`. -/
def itemSets (possible : List (Nat × List Nat)) : List (List Nat) :=
  possible.map itemSetOf

/-- The `valid_subsets` collection of `find_max_combinations` before
sorting and deduplication: every subset of `item_sets[i]` that is contained in
some `item_sets[j]` with `j ≠ i`.  (The source appends one copy per containing
`j`; the copies are erased by the `list(set(...))` dedup, so one copy is kept
here.) -/
def validSubsets (its : List (List Nat)) : List (List Nat) :=
  its.enum.flatMap (fun p =>
    p.2.sublists.filter (fun s =>
      its.enum.any (fun q => q.1 ≠ p.1 && subsetB s q.2)))

/-- `tuple(sorted(subset))` for every collected subset, deduplicated. -/
def sortedValidSubsets (its : List (List Nat)) : List (List Nat) :=
  dedupFirst ((validSubsets its).map (fun s => s.insertionSort (· ≤ ·)))

/-- The containment filter: drop every subset strictly contained in another
collected subset. -/
def maximalFilter (vs : List (List Nat)) : List (List Nat) :=
  (vs.enum.filter (fun p =>
    !(vs.enum.any (fun q => q.1 ≠ p.1 && subsetB p.2 q.2)))).map (fun p => p.2)

/-- The final ad-hoc filter of `find_max_combinations`: for every index except
the last, drop the subset when `subset[1:]` is not contained in the
possible-combinations entry of `subset[0]`.  (The last index is never
examined: the loop runs over `range(len(final_subsets) - 1)`.)  `headD 0` is
unreachable: the empty tuple survives the containment filter only when it is
the sole subset, and then the loop body never runs. -/
def finalFilter (possible : List (Nat × List Nat)) (fs : List (List Nat)) :
    List (List Nat) :=
  (fs.enum.filter (fun p =>
    p.1 == fs.length - 1 || subsetB p.2.tail (lookupD possible (p.2.headD 0)))).map
    (fun p => p.2)

/-- `TrafficLightsCombinator.find_max_combinations`. -/
def findMaxCombinations (possible : List (Nat × List Nat)) : List (List Nat) :=
  finalFilter possible (maximalFilter (sortedValidSubsets (itemSets possible)))

/-- `TrafficLightsCombinator.calculate_possible_active_lights`. -/
def calculatePossibleActiveLights (j : Junction) : List (List Nat) :=
  findMaxCombinations (possibleCombinations j)

/-- A list of light IDs is a compatible subset of the junction: every ID
resolves, and every two distinct members are pairwise non-conflicting. -/
def isCompatSubset (j : Junction) (s : List Nat) : Bool :=
  s.all (fun a => (j.getTrafficLightById a).isSome) &&
  s.all (fun a => s.all (fun b => a == b || idPairNonConflict j a b))

/-- A compatible subset is maximal when no further light of the junction can
be added while keeping it compatible. -/
def isMaximalCompatSubset (j : Junction) (s : List Nat) : Bool :=
  isCompatSubset j s &&
  j.lightIds.all (fun x => s.contains x || !isCompatSubset j (x :: s))

/-- Every key and every stored ID of a possible-combinations map belongs to
the given ID list. -/
def GoodMap (ids : List Nat) (m : List (Nat × List Nat)) : Prop :=
  ∀ p ∈ m, p.1 ∈ ids ∧ ∀ v ∈ p.2, v ∈ ids

end Combinator

open Combinator in
/-- The enumerator contract as claimed: every returned tuple is pairwise
compatible, every returned tuple is maximal, and every maximal compatible
subset of the junction's lights appears (as its sorted tuple) in the returned
list. -/
def ClaimEnumeratorExact (j : Junction) : Prop :=
  (∀ c ∈ calculatePossibleActiveLights j, isCompatSubset j c = true) ∧
  (∀ c ∈ calculatePossibleActiveLights j, isMaximalCompatSubset j c = true) ∧
  (∀ s ∈ j.lightIds.sublists, isMaximalCompatSubset j s = true →
    s.insertionSort (· ≤ ·) ∈ calculatePossibleActiveLights j)

/-! ## Spec-side pairwise non-conflict predicates (§4.2)

The following definitions follow the spec's words, for comparison with the
predicates embedded from `TrafficLightsCombinator.py` above. -/

namespace Spec

open Combinator (originRoadId)

/-- Spec §4.2(3): a left-turn movement is N→E, W→N, S→W or E→S. -/
def LeftMove (f t : RoadEnum) : Prop :=
  (f = .NORTH ∧ t = .EAST) ∨ (f = .WEST ∧ t = .NORTH) ∨
  (f = .SOUTH ∧ t = .WEST) ∨ (f = .EAST ∧ t = .SOUTH)

/-- Spec: a right-turn movement (the rotations opposite to `LeftMove`):
N→W, W→S, S→E or E→N. -/
def RightMove (f t : RoadEnum) : Prop :=
  (f = .NORTH ∧ t = .WEST) ∨ (f = .WEST ∧ t = .SOUTH) ∨
  (f = .SOUTH ∧ t = .EAST) ∨ (f = .EAST ∧ t = .NORTH)

/-- Spec: the light permits a left turn. -/
def PermitsLeft (j : Junction) (tl : TrafficLight) : Prop :=
  ∃ d ∈ tl.destinations,
    LeftMove (j.roadFromSideD (originRoadId tl)) (j.roadToSideD (d / 10))

/-- Spec: every movement the light permits is a right turn. -/
def RightOnly (j : Junction) (tl : TrafficLight) : Prop :=
  ∀ d ∈ tl.destinations,
    RightMove (j.roadFromSideD (originRoadId tl)) (j.roadToSideD (d / 10))

/-- Spec §4.2(2): the light permits a straight-through movement — origin
from-side plus some destination to-side summing even. -/
def PermitsStraight (j : Junction) (tl : TrafficLight) : Prop :=
  ∃ d ∈ tl.destinations,
    ((j.roadFromSideD (originRoadId tl)).val + (j.roadToSideD (d / 10)).val) % 2 = 0

/-- Spec §4.2(1): if the origin roads differ, no destination road is shared. -/
def NoMergeConflict (tl1 tl2 : TrafficLight) : Prop :=
  originRoadId tl1 ≠ originRoadId tl2 →
    ∀ d1 ∈ tl1.destinations, ∀ d2 ∈ tl2.destinations, d1 / 10 ≠ d2 / 10

/-- Spec §4.2(2): not both straight-through on perpendicular origin roads. -/
def NoStraightCross (j : Junction) (tl1 tl2 : TrafficLight) : Prop :=
  ¬(PermitsStraight j tl1 ∧ PermitsStraight j tl2 ∧
    ((j.roadFromSideD (originRoadId tl1)).val +
      (j.roadFromSideD (originRoadId tl2)).val) % 2 = 1)

/-- Spec §4.2(3): if one light permits a left turn, the other has the same
origin from-side or permits only right turns (symmetric in the two lights). -/
def NoProtectedLeftConflict (j : Junction) (tl1 tl2 : TrafficLight) : Prop :=
  (PermitsLeft j tl1 →
    (j.roadFromSideD (originRoadId tl1) = j.roadFromSideD (originRoadId tl2) ∨
      RightOnly j tl2)) ∧
  (PermitsLeft j tl2 →
    (j.roadFromSideD (originRoadId tl1) = j.roadFromSideD (originRoadId tl2) ∨
      RightOnly j tl1))

end Spec

/-! ## `algo/Algorithms/SmartTrafficController.py` -/

namespace SmartController

/-- One entry of `_compute_phase_scores`: the car-wait dictionary of a phase
is a list of `(car_id, accumulated_wait)` pairs; `last_served` maps phases to
the time they were last green (`dict.get` defaults to the current time). -/
def phaseScoreEntry (alpha beta gamma t : ℚ) (lastServed : List (List Nat × ℚ))
    (comb : List Nat) (carDict : List (Nat × ℚ)) : ℚ :=
  let totalWait := (carDict.map Prod.snd).sum
  let vehicleCount := carDict.length
  if vehicleCount = 0 then 0
  else
    let timeSinceGreen := t - ((lastServed.lookup comb).getD t)
    let fairnessBonus := gamma * timeSinceGreen
    alpha * totalWait + beta * (vehicleCount : ℚ) + fairnessBonus

/-- `SmartTrafficController._compute_phase_scores`: one score per tracked
phase, in the dictionary's (insertion) order. -/
def computePhaseScores (alpha beta gamma t : ℚ)
    (carWaitTimes : List (List Nat × List (Nat × ℚ)))
    (lastServed : List (List Nat × ℚ)) : List (List Nat × ℚ) :=
  carWaitTimes.map (fun p => (p.1, phaseScoreEntry alpha beta gamma t lastServed p.1 p.2))

/-- Python's `max(scores, key=scores.get)`: the first entry attaining the
maximal value, `none` on an empty map. -/
def argmaxFirst {β : Type} [LinearOrder β] (scores : List (List Nat × β)) :
    Option (List Nat × β) :=
  scores.foldl
    (fun acc p =>
      match acc with
      | none => some p
      | some q => if p.2 > q.2 then some p else some q)
    none

/-- The phase-selection step of `SmartTrafficController.start` (lines 66-92):
take the argmax of the score map; when a current phase exists and the best
differs from it by less than the hysteresis threshold, keep the current phase.
Returns the activated phase, `none` when the score map is empty (no
activation this tick). -/
def chooseCombination (scores : List (List Nat × ℚ)) (current : Option (List Nat))
    (threshold : ℚ) : Option (List Nat) :=
  match argmaxFirst scores with
  | none => none
  | some best =>
    match current with
    | none => some best.1
    | some cur =>
      let curScore := (scores.lookup cur).getD 0
      if best.1 ≠ cur ∧ best.2 - curScore < threshold then some cur
      else some best.1

end SmartController

/-! ## Phase activation (`SmartTrafficController.start` lines 81-92 and
`VolumeBasedController.apply_best_combination`) -/

/-- Turn every light whose ID is in the combination green and every other
light red. -/
def activateCombination (j : Junction) (comb : List Nat) : Junction :=
  { j with
    trafficLights := j.trafficLights.map (fun tl =>
      if comb.contains tl.id then { tl with state := true }
      else { tl with state := false }) }

namespace VolumeController

/-- One step of the inner loop of `VolumeBasedController.compute_scores`:
the accumulator is `(score, seen_roads)`.  A `None` from either lookup makes
the source raise; the pass-through is unreachable for IDs produced by the
combinator on a well-formed junction. -/
def volumeScoreStep (j : Junction) (acc : Nat × List Nat) (tlId : Nat) :
    Nat × List Nat :=
  match j.getTrafficLightById tlId with
  | none => acc
  | some tl =>
    let roadId := tl.origins.headD 0 / 10
    if acc.2.contains roadId then acc
    else
      match j.getRoadById roadId with
      | none => acc
      | some road =>
        let lanes := road.lanes.filter (fun lane => tl.origins.contains lane.id)
        (acc.1 + (lanes.map (fun lane => lane.cars.length)).sum, roadId :: acc.2)

/-- `VolumeBasedController.compute_scores`: the number of cars on the origin
lanes of each combination, each road counted once. -/
def volumeScores (j : Junction) (combs : List (List Nat)) : List (List Nat × Nat) :=
  combs.map (fun comb => (comb, (comb.foldl (volumeScoreStep j) (0, [])).1))

/-- `VolumeBasedController.apply_best_combination`: activate the combination
with the highest score (no change when the score map is empty). -/
def applyBestCombination (j : Junction) (scores : List (List Nat × Nat)) : Junction :=
  match SmartController.argmaxFirst scores with
  | none => j
  | some best => activateCombination j best.1

end VolumeController

/-! ## `sim/Sim.py` -/

namespace Sim

/-- `Sim.__check_if_green`: some light lists the lane among its origins, is
green, and is not in amber. -/
def checkIfGreen (lane : Lane) (j : Junction) : Bool :=
  j.trafficLights.any (fun tl =>
    tl.origins.contains lane.id && tl.state && !tl.isYellow)

/-- `Sim.__distance_to_car_ahead`: smallest gap to a car ahead in the lane,
`none` for `math.inf`.  The source compares cars by object identity
(`c != this_car`); cars are identified by their IDs here. -/
def distanceToCarAhead (lane : Lane) (thisCar : Car) : Option ℚ :=
  let carsAhead := lane.cars.filter (fun c =>
    c.dist < thisCar.dist && c.id ≠ thisCar.id)
  match carsAhead.map (fun c => thisCar.dist - c.dist) with
  | [] => none
  | g :: gs => some (gs.foldl min g)

/-- The safe stopping distance of `Sim.__move_car`:
`max(60, v^2/(2*deceleration) if deceleration > 0 else 60)`. -/
def safeDistance (lane : Lane) (velocity : ℚ) : ℚ :=
  if lane.maxDecel > 0 then max 60 (velocity ^ 2 / (2 * lane.maxDecel)) else 60

/-- The desired velocity of `Sim.__move_car`: `0` at a non-green light inside
the stopping window `5 ≤ d < 40`, otherwise reduced toward the car ahead when
it is closer than the safe distance, otherwise the lane's speed ceiling. -/
def desiredVelocity (lane : Lane) (lightGreen : Bool) (dist velocity : ℚ)
    (gap : Option ℚ) (sDist : ℚ) : ℚ :=
  if lightGreen = false ∧ 5 ≤ dist ∧ dist < 40 then 0
  else
    match gap with
    | some g => if g < sDist then min lane.maxVel (velocity * (g / sDist)) else lane.maxVel
    | none => lane.maxVel

/-- The kinematic update of `Sim.__move_car` (lines 160-203): returns the
new velocity and the new distance of the car.  The lane-transfer and removal
logic that follows in the source does not change the velocity. -/
def moveCarKinematics (timeStep : ℚ) (lane : Lane) (j : Junction) (car : Car) :
    ℚ × ℚ :=
  let velocity := car.velocity
  let dist := car.dist
  let deceleration := lane.maxDecel
  let accelerationLimit := lane.maxAccel
  let lightGreen := checkIfGreen lane j
  let gap := distanceToCarAhead lane car
  let sDist := safeDistance lane velocity
  let desired := desiredVelocity lane lightGreen dist velocity gap sDist
  let rawAcc := (desired - velocity) / timeStep
  let acc := max (-deceleration) (min rawAcc accelerationLimit)
  let newVelocity := velocity + acc * timeStep
  let displacement := velocity * timeStep + (1 / 2) * acc * timeStep ^ 2
  (newVelocity, dist - displacement)

/-- One tick applied to a car's state. -/
def stepCar (timeStep : ℚ) (lane : Lane) (j : Junction) (car : Car) : Car :=
  let r := moveCarKinematics timeStep lane j car
  { car with velocity := r.1, dist := r.2 }

/-- `n` ticks applied to a car's state. -/
def iterCar (timeStep : ℚ) (lane : Lane) (j : Junction) (car : Car) : Nat → Car
  | 0 => car
  | n + 1 => stepCar timeStep lane j (iterCar timeStep lane j car n)

/-- The vehicle is brought to a stop before the junction: it never has
negative stop-line distance while still moving. -/
def StoppedBeforeJunction (timeStep : ℚ) (lane : Lane) (j : Junction) (car : Car) :
    Prop :=
  ∀ n : Nat, (iterCar timeStep lane j car n).dist < 0 →
    (iterCar timeStep lane j car n).velocity = 0

/-- `Sim.__does_collide`: destination/origin road digits are the second
decimal digit of the lane IDs; the destination roads are looked up by
`int(str(junction.id) + str(digit))`, i.e. `junction.id * 10 + digit`.  The
source raises on a missing road; `roadToSideD` is unreachable there under the
road-presence hypotheses. -/
def doesCollide (j : Junction) (car1 car2 : Car) : Bool :=
  let roadDest1Id := car1.dest / 10 % 10
  let roadDest2Id := car2.dest / 10 % 10
  let roadOrigin1Id := car1.origin / 10 % 10
  let roadOrigin2Id := car2.origin / 10 % 10
  let toSide1 := (j.roadToSideD (j.id * 10 + roadDest1Id)).val
  let toSide2 := (j.roadToSideD (j.id * 10 + roadDest2Id)).val
  if roadOrigin1Id ≠ roadOrigin2Id then
    if (toSide1 + toSide2) % 2 == 1 then true
    else if roadDest1Id == roadDest2Id then true
    else false
  else false

/-- `Sim.__is_car_in_junction`: the junction span is the smaller of
`len(lanes of road 1) + len(lanes of road 2) + 20` and the same for roads 3
and 4; the car is inside when `-span < dist < 0`. -/
def isCarInJunction (j : Junction) (car : Car) : Bool :=
  let lanesCount := fun (k : Nat) =>
    match j.getRoadById (j.id * 10 + k) with
    | some r => r.lanes.length
    | none => 0
  let junctionWidth : ℚ := (lanesCount 1 : ℚ) + (lanesCount 2 : ℚ) + 20
  let junctionHeight : ℚ := (lanesCount 3 : ℚ) + (lanesCount 4 : ℚ) + 20
  let junctionSize := min junctionWidth junctionHeight
  decide (-junctionSize < car.dist ∧ car.dist < 0)

/-- The per-tick light handling of `Sim.__run` (lines 102-121): the lights of
the (single) junction plus the `__client_failed` flag. -/
structure SimLightsState where
  lights : List TrafficLight
  clientFailed : Bool
deriving DecidableEq, Repr

/-- `Sim.__set_all_lights_red`. -/
def setAllLightsRed (lights : List TrafficLight) : List TrafficLight :=
  lights.map (fun tl => { tl with state := false })

/-- One tick of the light handling in `Sim.__run`: step 1 sends the snapshot
when the client has not failed, forcing all lights red and latching
`__client_failed` on an exception; step 2 replaces the lights with the
server's states when still functional (`__update_traffic_lights`; amber
marking is modelled on the lights themselves) and keeps forcing red
otherwise.  `__client_failed` is never reset anywhere in the source. -/
def runTickLights (st : SimLightsState) (exchangeOk : Bool)
    (serverLights : List TrafficLight) : SimLightsState :=
  let st1 :=
    if !st.clientFailed && !exchangeOk then
      { lights := setAllLightsRed st.lights, clientFailed := true }
    else st
  if !st1.clientFailed then { st1 with lights := serverLights }
  else { st1 with lights := setAllLightsRed st1.lights }

end Sim

/-! ## Concrete fixtures -/

/-- Light 1: from road 1 (south-bound from N), destinations on road 5. -/
def tlA1 : TrafficLight :=
  { id := 1, origins := [10], destinations := [50], state := false, isYellow := false }

/-- Light 2: a second lane of road 1, same destinations as light 1. -/
def tlA2 : TrafficLight :=
  { id := 2, origins := [11], destinations := [50], state := false, isYellow := false }

/-- Light 3: from road 2 (from E), destination on road 4. -/
def tlA3 : TrafficLight :=
  { id := 3, origins := [20], destinations := [40], state := false, isYellow := false }

/-- Light 4: from road 3 (from W), destination on road 4 — a left turn
(W→N), and it merges with light 3 into road 4. -/
def tlA4 : TrafficLight :=
  { id := 4, origins := [30], destinations := [40], state := false, isYellow := false }

/-- A four-light junction: lights 1 and 2 share origin road 1 (from N) and
turn right into road 5; light 3 (from E) and light 4 (from W) both pour into
road 4, so they conflict with each other (merge) but not with lights 1 and 2.
Its compatibility graph has edges 1-2, 1-3, 1-4, 2-3, 2-4 and no edge 3-4;
its maximal cliques are {1,2,3} and {1,2,4}. -/
def Jcex : Junction :=
  { id := 7
    trafficLights := [tlA1, tlA2, tlA3, tlA4]
    roads :=
      [ { id := 1, lanes := [], fromSide := .NORTH, toSide := .SOUTH },
        { id := 2, lanes := [], fromSide := .EAST, toSide := .WEST },
        { id := 3, lanes := [], fromSide := .WEST, toSide := .EAST },
        { id := 4, lanes := [], fromSide := .SOUTH, toSide := .NORTH },
        { id := 5, lanes := [], fromSide := .EAST, toSide := .WEST } ] }

/-- The junction obtained from `Jcex` by one tick of the volume-based
controller: score the enumerated combinations and activate the best one. -/
def JcexActivated : Junction :=
  VolumeController.applyBestCombination Jcex
    (VolumeController.volumeScores Jcex (Combinator.calculatePossibleActiveLights Jcex))

/-- A single green light, for exercising the failure handling. -/
def greenLight : TrafficLight :=
  { id := 1, origins := [10], destinations := [20], state := true, isYellow := false }

/-- A car 6 units before the stop line at velocity 120. -/
def carFast : Car := { id := 0, dist := 6, velocity := 120, dest := 20, origin := 10 }

/-- A lane with the default simulation parameters (`max_vel = 100`, hence
`max_decel = 300` and `max_accel = 200`) and a single fast car close to the
stop line. -/
def laneFast : Lane :=
  { id := 10, cars := [carFast], carCreation := 0, length := 400, maxVel := 100 }

/-- A junction with no traffic lights at all: every lane is uncontrolled. -/
def JnoLights : Junction :=
  { id := 1, trafficLights := [],
    roads := [ { id := 1, lanes := [laneFast], fromSide := .NORTH, toSide := .SOUTH } ] }

/-- A lane controlled by the amber light of `Jamber`. -/
def laneAmber : Lane :=
  { id := 10, cars := [], carCreation := 0, length := 400, maxVel := 100 }

/-- A junction whose only light is green for lane 10 but currently in amber. -/
def Jamber : Junction :=
  { id := 1
    trafficLights :=
      [ { id := 1, origins := [10], destinations := [20], state := true, isYellow := true } ]
    roads := [ { id := 1, lanes := [laneAmber], fromSide := .NORTH, toSide := .SOUTH } ] }

/-- A car-free lane with the default parameters. -/
def emptyLane (laneId : Nat) : Lane :=
  { id := laneId, cars := [], carCreation := 0, length := 400, maxVel := 100 }

/-- A four-road junction (roads 11-14 under junction 1) for the collision
predicate, with one lane per road. -/
def Jcol : Junction :=
  { id := 1
    trafficLights := []
    roads :=
      [ { id := 11, lanes := [emptyLane 111], fromSide := .SOUTH, toSide := .NORTH },
        { id := 12, lanes := [emptyLane 121], fromSide := .NORTH, toSide := .SOUTH },
        { id := 13, lanes := [emptyLane 131], fromSide := .WEST, toSide := .EAST },
        { id := 14, lanes := [emptyLane 141], fromSide := .EAST, toSide := .WEST } ] }

/-- A car inside `Jcol` heading from road 11 to road 13. -/
def carA : Car := { id := 1, dist := -1, velocity := 10, dest := 131, origin := 111 }

/-- A car inside `Jcol` heading from road 14 to road 12. -/
def carB : Car := { id := 2, dist := -2, velocity := 10, dest := 121, origin := 141 }

end TrafficSim

/-! # Theorems -/

namespace TrafficSim

namespace Combinator

/-- A movement counts as a left turn in the source exactly when it is one of
the spec's four left-turn movements. -/
theorem leftPair_iff {f t : RoadEnum} : leftPair f t = true ↔ Spec.LeftMove f t := by
  cases f <;> cases t <;> simp [leftPair, Spec.LeftMove]

/-- One conjunct of `check_if_turn_only_right` holds exactly when the
movement is one of the spec's four right-turn movements. -/
theorem rightElem_iff {f t : RoadEnum} :
    (!(f == RoadEnum.WEST && t != RoadEnum.SOUTH) &&
      !(f == RoadEnum.SOUTH && t != RoadEnum.EAST) &&
      !(f == RoadEnum.EAST && t != RoadEnum.NORTH) &&
      !(f == RoadEnum.NORTH && t != RoadEnum.WEST)) = true ↔ Spec.RightMove f t := by
  cases f <;> cases t <;> simp [Spec.RightMove]

/-- A movement is never simultaneously a left and a right turn. -/
theorem leftMove_rightMove_false {f t : RoadEnum} :
    Spec.LeftMove f t → Spec.RightMove f t → False := by
  cases f <;> cases t <;> simp [Spec.LeftMove, Spec.RightMove]

/-- `any` over a mapped list, for maps that change the element type. -/
theorem anyMap_eq {α β : Type} (f : α → β) (l : List α) (p : β → Bool) :
    (l.map f).any p = l.any (fun a => p (f a)) := by
  induction l with
  | nil => rfl
  | cons a l ih => simp [ih]

/-- `all` over a mapped list, for maps that change the element type. -/
theorem allMap_eq {α β : Type} (f : α → β) (l : List α) (p : β → Bool) :
    (l.map f).all p = l.all (fun a => p (f a)) := by
  induction l with
  | nil => rfl
  | cons a l ih => simp [ih]

/-- `check_if_turn_left` on a light's destinations captures the spec's
"permits a left turn". -/
theorem checkIfTurnLeft_iff {j : Junction} {tl : TrafficLight} :
    checkIfTurnLeft (j.roadFromSideD (originRoadId tl)) (toSidesDest j tl) = true ↔
      Spec.PermitsLeft j tl := by
  unfold checkIfTurnLeft toSidesDest Spec.PermitsLeft
  rw [anyMap_eq]
  simp only [List.any_eq_true, leftPair_iff]

/-- `check_if_turn_only_right` on a light's destinations captures the spec's
"permits only right turns". -/
theorem checkIfTurnOnlyRight_iff {j : Junction} {tl : TrafficLight} :
    checkIfTurnOnlyRight (j.roadFromSideD (originRoadId tl)) (toSidesDest j tl) = true ↔
      Spec.RightOnly j tl := by
  unfold checkIfTurnOnlyRight toSidesDest Spec.RightOnly
  rw [allMap_eq]
  simp only [List.all_eq_true, rightElem_iff]

/-- `check_if_continue_straight` on a light's destinations captures the
spec's "permits a straight-through movement". -/
theorem checkIfContinueStraight_iff {j : Junction} {tl : TrafficLight} :
    checkIfContinueStraight (j.roadFromSideD (originRoadId tl)) (toSidesDest j tl) = true ↔
      Spec.PermitsStraight j tl := by
  unfold checkIfContinueStraight toSidesDest Spec.PermitsStraight
  rw [anyMap_eq]
  simp only [List.any_eq_true, Nat.beq_eq_true_eq]

/-- A light that permits a left turn does not permit only right turns. -/
theorem permitsLeft_not_rightOnly {j : Junction} {tl : TrafficLight} :
    Spec.PermitsLeft j tl → Spec.RightOnly j tl → False := by
  rintro ⟨d, hd, hleft⟩ hright
  exact leftMove_rightMove_false hleft (hright d hd)

/-- `not_entering_the_same_road` captures spec sub-predicate (1). -/
theorem notEntering_iff {tl1 tl2 : TrafficLight} :
    notEnteringTheSameRoad tl1 tl2 = true ↔ Spec.NoMergeConflict tl1 tl2 := by
  simp only [notEnteringTheSameRoad, Spec.NoMergeConflict, Bool.not_eq_true',
    Bool.and_eq_false_iff, decide_eq_false_iff_not, not_not, List.any_eq_false,
    List.any_eq_true, not_exists, not_and, Nat.beq_eq_true_eq]
  constructor
  · intro h hne d1 hd1 d2 hd2
    rcases h with h | h
    · exact absurd h hne
    · exact h d1 hd1 d2 hd2
  · intro h
    by_cases heq : originRoadId tl1 = originRoadId tl2
    · exact Or.inl heq
    · exact Or.inr (h heq)

/-- `not_intersect_on_straight` captures spec sub-predicate (2). -/
theorem notIntersectOnStraight_iff {j : Junction} {tl1 tl2 : TrafficLight} :
    notIntersectOnStraight j tl1 tl2 = true ↔ Spec.NoStraightCross j tl1 tl2 := by
  unfold notIntersectOnStraight Spec.NoStraightCross
  by_cases hodd :
      ((j.roadFromSideD (originRoadId tl1)).val +
        (j.roadFromSideD (originRoadId tl2)).val) % 2 = 1
  · rw [if_pos (by simpa using hodd)]
    simp only [hodd, and_true]
    rw [← @checkIfContinueStraight_iff j tl1, ← @checkIfContinueStraight_iff j tl2]
    cases hb1 : checkIfContinueStraight (j.roadFromSideD (originRoadId tl1)) (toSidesDest j tl1) <;>
      cases hb2 : checkIfContinueStraight (j.roadFromSideD (originRoadId tl2)) (toSidesDest j tl2) <;>
      simp
  · rw [if_neg (by simpa using hodd)]
    simp [hodd]

/-- `not_intersect_on_turn_left` captures spec sub-predicate (3): although the
source tests the lights in a fixed order, its value agrees with the
symmetric spec predicate because a light that permits a left turn never
permits only right turns. -/
theorem notIntersectOnTurnLeft_iff {j : Junction} {tl1 tl2 : TrafficLight} :
    notIntersectOnTurnLeft j tl1 tl2 = true ↔ Spec.NoProtectedLeftConflict j tl1 tl2 := by
  unfold notIntersectOnTurnLeft Spec.NoProtectedLeftConflict
  by_cases hL1 :
      checkIfTurnLeft (j.roadFromSideD (originRoadId tl1)) (toSidesDest j tl1) = true
  · rw [if_pos hL1]
    have hL1s : Spec.PermitsLeft j tl1 := checkIfTurnLeft_iff.mp hL1
    constructor
    · intro h
      have hor : j.roadFromSideD (originRoadId tl1) = j.roadFromSideD (originRoadId tl2) ∨
          Spec.RightOnly j tl2 := by
        rcases Bool.or_eq_true _ _ ▸ h with heq | hro
        · exact Or.inl (by simpa using heq)
        · exact Or.inr (checkIfTurnOnlyRight_iff.mp hro)
      refine ⟨fun _ => hor, fun hL2s => ?_⟩
      rcases hor with heq | hro
      · exact Or.inl heq
      · exact (permitsLeft_not_rightOnly hL2s hro).elim
    · rintro ⟨h1, _⟩
      rcases h1 hL1s with heq | hro
      · rw [Bool.or_eq_true]
        exact Or.inl (by simp [heq])
      · rw [Bool.or_eq_true]
        exact Or.inr (checkIfTurnOnlyRight_iff.mpr hro)
  · rw [if_neg hL1]
    have hL1s : ¬Spec.PermitsLeft j tl1 := fun hs => hL1 (checkIfTurnLeft_iff.mpr hs)
    by_cases hL2 :
        checkIfTurnLeft (j.roadFromSideD (originRoadId tl2)) (toSidesDest j tl2) = true
    · rw [if_pos hL2]
      have hL2s : Spec.PermitsLeft j tl2 := checkIfTurnLeft_iff.mp hL2
      constructor
      · intro h
        have hor : j.roadFromSideD (originRoadId tl1) = j.roadFromSideD (originRoadId tl2) ∨
            Spec.RightOnly j tl1 := by
          rcases Bool.or_eq_true _ _ ▸ h with heq | hro
          · exact Or.inl (by simpa using heq)
          · exact Or.inr (checkIfTurnOnlyRight_iff.mp hro)
        exact ⟨fun hl1 => absurd hl1 hL1s, fun _ => hor⟩
      · rintro ⟨_, h2⟩
        rcases h2 hL2s with heq | hro
        · rw [Bool.or_eq_true]
          exact Or.inl (by simp [heq])
        · rw [Bool.or_eq_true]
          exact Or.inr (checkIfTurnOnlyRight_iff.mpr hro)
    · rw [if_neg hL2]
      have hL2s : ¬Spec.PermitsLeft j tl2 := fun hs => hL2 (checkIfTurnLeft_iff.mpr hs)
      simp [hL1s, hL2s]

/-- Spec predicate (1) is symmetric in the two lights. -/
theorem noMergeConflict_symm {tl1 tl2 : TrafficLight} :
    Spec.NoMergeConflict tl1 tl2 ↔ Spec.NoMergeConflict tl2 tl1 := by
  unfold Spec.NoMergeConflict
  constructor
  · intro h hne d2 hd2 d1 hd1
    exact (h (Ne.symm hne) d1 hd1 d2 hd2).symm
  · intro h hne d1 hd1 d2 hd2
    exact (h (Ne.symm hne) d2 hd2 d1 hd1).symm

/-- Spec predicate (2) is symmetric in the two lights. -/
theorem noStraightCross_symm {j : Junction} {tl1 tl2 : TrafficLight} :
    Spec.NoStraightCross j tl1 tl2 ↔ Spec.NoStraightCross j tl2 tl1 := by
  unfold Spec.NoStraightCross
  rw [Nat.add_comm ((j.roadFromSideD (originRoadId tl1)).val)]
  tauto

/-- Spec predicate (3) is symmetric in the two lights. -/
theorem noProtectedLeftConflict_symm {j : Junction} {tl1 tl2 : TrafficLight} :
    Spec.NoProtectedLeftConflict j tl1 tl2 ↔ Spec.NoProtectedLeftConflict j tl2 tl1 := by
  unfold Spec.NoProtectedLeftConflict
  rw [eq_comm (a := j.roadFromSideD (originRoadId tl1))]
  tauto

/-- Claim C2: for lights with non-empty origins whose referenced roads are all
present in the junction, the conjunction of the three source predicates holds
exactly when the three spec sub-predicates of section 4.2 hold. -/
theorem claimC2_nonConflict_refines_spec (j : Junction) (tl1 tl2 : TrafficLight)
    (h1 : tl1.origins ≠ []) (h2 : tl2.origins ≠ [])
    (hr1 : (j.getRoadById (originRoadId tl1)).isSome = true)
    (hr2 : (j.getRoadById (originRoadId tl2)).isSome = true)
    (hd1 : ∀ d ∈ tl1.destinations, (j.getRoadById (d / 10)).isSome = true)
    (hd2 : ∀ d ∈ tl2.destinations, (j.getRoadById (d / 10)).isSome = true) :
    pairNonConflict j tl1 tl2 = true ↔
      Spec.NoMergeConflict tl1 tl2 ∧ Spec.NoStraightCross j tl1 tl2 ∧
        Spec.NoProtectedLeftConflict j tl1 tl2 := by
  unfold pairNonConflict
  simp only [Bool.and_eq_true]
  rw [notEntering_iff, notIntersectOnStraight_iff, notIntersectOnTurnLeft_iff]
  tauto

/-- Claim C2 witness: the equivalence at lights 1 and 3 of the four-light
junction. -/
theorem claimC2_witness :
    pairNonConflict Jcex tlA1 tlA3 = true ↔
      Spec.NoMergeConflict tlA1 tlA3 ∧ Spec.NoStraightCross Jcex tlA1 tlA3 ∧
        Spec.NoProtectedLeftConflict Jcex tlA1 tlA3 :=
  claimC2_nonConflict_refines_spec Jcex tlA1 tlA3 (by decide) (by decide)
    (by decide) (by decide) (by decide) (by decide)

/-- Claim C9: the pairwise non-conflict relation implemented by the enumerator
is symmetric: the conjunction of the three predicates takes the same value on
(L1, L2) and on (L2, L1). -/
theorem claimC9_nonConflict_symm (j : Junction) (tl1 tl2 : TrafficLight) :
    pairNonConflict j tl1 tl2 = pairNonConflict j tl2 tl1 := by
  have comp : ∀ (a b : TrafficLight),
      pairNonConflict j a b = true ↔
        Spec.NoMergeConflict a b ∧ Spec.NoStraightCross j a b ∧
          Spec.NoProtectedLeftConflict j a b := by
    intro a b
    unfold pairNonConflict
    simp only [Bool.and_eq_true]
    rw [notEntering_iff, notIntersectOnStraight_iff, notIntersectOnTurnLeft_iff]
    tauto
  have hiff : pairNonConflict j tl1 tl2 = true ↔ pairNonConflict j tl2 tl1 = true := by
    rw [comp tl1 tl2, comp tl2 tl1, noMergeConflict_symm, noStraightCross_symm,
      noProtectedLeftConflict_symm]
  cases ha : pairNonConflict j tl1 tl2 <;> cases hb : pairNonConflict j tl2 tl1 <;>
    simp_all

/-- Membership in an enumerate-filter-map pipeline implies membership in the
underlying list. -/
theorem mem_of_mem_enumFilterMap {α : Type} {l : List α} {pred : Nat × α → Bool}
    {c : α} (h : c ∈ (l.enum.filter pred).map Prod.snd) : c ∈ l := by
  obtain ⟨p, hp, rfl⟩ := List.mem_map.mp h
  exact List.get?_mem (List.mem_enum_iff_get?.mp (List.mem_filter.mp hp).1)

/-- Membership in the deduplicated list implies membership in the original. -/
theorem mem_of_mem_dedupFirstAux {c : List Nat} :
    ∀ {l seen : List (List Nat)}, c ∈ dedupFirstAux l seen → c ∈ l := by
  intro l
  induction l with
  | nil =>
    intro seen h
    exact absurd h (List.not_mem_nil c)
  | cons x xs ih =>
    intro seen h
    unfold dedupFirstAux at h
    by_cases hx : x ∈ seen
    · rw [if_pos hx] at h
      exact List.mem_cons_of_mem _ (ih h)
    · rw [if_neg hx] at h
      rcases List.mem_cons.mp h with rfl | h
      · exact List.mem_cons_self _ _
      · exact List.mem_cons_of_mem _ (ih h)

/-- Membership in `dedupFirst` implies membership in the original list. -/
theorem mem_of_mem_dedupFirst {c : List Nat} {l : List (List Nat)}
    (h : c ∈ dedupFirst l) : c ∈ l :=
  mem_of_mem_dedupFirstAux h

/-- `addEntry` preserves the `GoodMap` invariant. -/
theorem addEntry_good {ids : List Nat} {k v : Nat} (hk : k ∈ ids) (hv : v ∈ ids) :
    ∀ (m : List (Nat × List Nat)), GoodMap ids m → GoodMap ids (addEntry m k v) := by
  intro m
  induction m with
  | nil =>
    intro _ p hp
    unfold addEntry at hp
    rcases List.mem_singleton.mp hp with rfl
    refine ⟨hk, ?_⟩
    intro x hx
    rcases List.mem_singleton.mp hx with rfl
    exact hv
  | cons q rest ih =>
    intro hm
    obtain ⟨k0, vs⟩ := q
    have hq := hm (k0, vs) (List.mem_cons_self _ _)
    have hrest : GoodMap ids rest := fun p hp => hm p (List.mem_cons_of_mem _ hp)
    intro p hp
    unfold addEntry at hp
    by_cases hqk : (k0 == k) = true
    · rw [if_pos hqk] at hp
      rcases List.mem_cons.mp hp with rfl | hp
      · refine ⟨hq.1, ?_⟩
        intro x hx
        rcases List.mem_append.mp hx with hx | hx
        · exact hq.2 x hx
        · rcases List.mem_singleton.mp hx with rfl
          exact hv
      · exact hrest p hp
    · rw [if_neg hqk] at hp
      rcases List.mem_cons.mp hp with rfl | hp
      · exact hq
      · exact ih hrest p hp

/-- The inner loop of `calculate_possible_active_lights` preserves the
`GoodMap` invariant. -/
theorem fold_inner_good (j : Junction) (tl1 : TrafficLight)
    (h1 : tl1.id ∈ j.lightIds) :
    ∀ (L : List TrafficLight) (m : List (Nat × List Nat)),
      (∀ tl ∈ L, tl.id ∈ j.lightIds) → GoodMap j.lightIds m →
      GoodMap j.lightIds (L.foldl
        (fun acc tl2 => if pairNonConflict j tl1 tl2 then addEntry acc tl1.id tl2.id else acc)
        m) := by
  intro L
  induction L with
  | nil =>
    intro m _ hm
    simpa using hm
  | cons tl2 rest ih =>
    intro m hL hm
    rw [List.foldl_cons]
    apply ih
    · intro tl h
      exact hL tl (List.mem_cons_of_mem _ h)
    · by_cases hc : pairNonConflict j tl1 tl2 = true
      · rw [if_pos hc]
        exact addEntry_good h1 (hL tl2 (List.mem_cons_self _ _)) m hm
      · rw [if_neg hc]
        exact hm

/-- All keys and stored IDs of the raw possible-combinations map are IDs of
the junction's lights. -/
theorem possibleCombinationsRaw_good (j : Junction) :
    GoodMap j.lightIds (possibleCombinationsRaw j) := by
  unfold possibleCombinationsRaw
  have main : ∀ (L : List TrafficLight) (m : List (Nat × List Nat)),
      (∀ tl ∈ L, tl.id ∈ j.lightIds) → GoodMap j.lightIds m →
      GoodMap j.lightIds (L.foldl
        (fun acc tl1 => j.trafficLights.foldl
          (fun acc2 tl2 =>
            if pairNonConflict j tl1 tl2 then addEntry acc2 tl1.id tl2.id else acc2)
          acc)
        m) := by
    intro L
    induction L with
    | nil =>
      intro m _ hm
      simpa using hm
    | cons tl1 rest ih =>
      intro m hL hm
      rw [List.foldl_cons]
      apply ih
      · intro tl h
        exact hL tl (List.mem_cons_of_mem _ h)
      · refine fold_inner_good j tl1 (hL tl1 (List.mem_cons_self _ _)) j.trafficLights m ?_ hm
        intro tl h
        exact List.mem_map_of_mem _ h
  apply main
  · intro tl h
    exact List.mem_map_of_mem _ h
  · intro p hp
    exact absurd hp (List.not_mem_nil p)

/-- All keys and stored IDs of the possible-combinations map (after
self-removal) are IDs of the junction's lights. -/
theorem possibleCombinations_good (j : Junction) :
    GoodMap j.lightIds (possibleCombinations j) := by
  intro p hp
  unfold possibleCombinations at hp
  obtain ⟨q, hq, rfl⟩ := List.mem_map.mp hp
  obtain ⟨hk, hv⟩ := possibleCombinationsRaw_good j q hq
  exact ⟨hk, fun v hvm => hv v (List.mem_of_mem_erase hvm)⟩

/-- Claim C1 counterexample: on the four-light junction the enumerator's
output is `[[1, 2, 3, 4]]`, which contains the conflicting pair (3, 4) and
omits both maximal compatible subsets {1, 2, 3} and {1, 2, 4}; the claimed
enumerator contract fails. -/
theorem claimC1_counterexample : ¬ ClaimEnumeratorExact Jcex := by
  unfold ClaimEnumeratorExact
  decide

/-- Claim C1 (amended): every tuple returned by
`calculate_possible_active_lights` is a sorted, duplicate-free tuple of IDs of
the junction's lights; the output is not in general the set of maximal
cliques of the compatibility graph. -/
theorem claimC1_amended (j : Junction) (c : List Nat)
    (hc : c ∈ calculatePossibleActiveLights j) :
    c.Sorted (· ≤ ·) ∧ c.Nodup ∧ ∀ x ∈ c, x ∈ j.lightIds := by
  have hc1 : c ∈ maximalFilter (sortedValidSubsets (itemSets (possibleCombinations j))) := by
    have h0 := hc
    unfold calculatePossibleActiveLights findMaxCombinations finalFilter at h0
    exact mem_of_mem_enumFilterMap h0
  have hc2 : c ∈ sortedValidSubsets (itemSets (possibleCombinations j)) := by
    unfold maximalFilter at hc1
    exact mem_of_mem_enumFilterMap hc1
  have hc3 : c ∈ (validSubsets (itemSets (possibleCombinations j))).map
      (fun s => s.insertionSort (· ≤ ·)) := by
    unfold sortedValidSubsets at hc2
    exact mem_of_mem_dedupFirst hc2
  obtain ⟨s, hs, rfl⟩ := List.mem_map.mp hc3
  obtain ⟨t, ht, hsub⟩ : ∃ t ∈ itemSets (possibleCombinations j), s.Sublist t := by
    unfold validSubsets at hs
    obtain ⟨p, hp, hsf⟩ := List.mem_flatMap.mp hs
    refine ⟨p.2, ?_, List.mem_sublists.mp (List.mem_filter.mp hsf).1⟩
    exact List.get?_mem (List.mem_enum_iff_get?.mp hp)
  obtain ⟨q, hq, rfl⟩ := List.mem_map.mp ht
  have htn : (itemSetOf q).Nodup := List.nodup_dedup _
  have hsn : s.Nodup := List.Nodup.sublist hsub htn
  refine ⟨List.sorted_insertionSort _ _, ?_, ?_⟩
  · exact ((List.perm_insertionSort _ s).nodup_iff).mpr hsn
  · intro x hx
    have hxs : x ∈ s := ((List.perm_insertionSort _ s).mem_iff).mp hx
    have hxt : x ∈ itemSetOf q := hsub.subset hxs
    unfold itemSetOf at hxt
    rcases List.mem_cons.mp (List.mem_dedup.mp hxt) with rfl | hxv
    · exact (possibleCombinations_good j q hq).1
    · exact (possibleCombinations_good j q hq).2 x hxv

/-- Claim C1 (amended) witness: the single tuple returned on the four-light
junction is sorted, duplicate-free, and made of that junction's light IDs. -/
theorem claimC1_amended_witness :
    ([1, 2, 3, 4] : List Nat).Sorted (· ≤ ·) ∧ ([1, 2, 3, 4] : List Nat).Nodup ∧
      ∀ x ∈ ([1, 2, 3, 4] : List Nat), x ∈ Jcex.lightIds :=
  claimC1_amended Jcex [1, 2, 3, 4] (by decide)

end Combinator

end TrafficSim


namespace TrafficSim

/-- Claim C3 counterexample: one tick of the volume-based controller on the
four-light junction activates the single enumerated combination (1, 2, 3, 4);
lights 3 and 4 are then both GREEN although the pair violates the pairwise
non-conflict predicate of the enumerator. -/
theorem claimC3_counterexample :
    ((JcexActivated.getTrafficLightById 3).map TrafficLight.state = some true) ∧
    ((JcexActivated.getTrafficLightById 4).map TrafficLight.state = some true) ∧
    Combinator.idPairNonConflict JcexActivated 3 4 = false := by
  decide

/-- Claim C3 (amended): after a controller tick activates a phase P, a light
of the junction is GREEN exactly when its ID belongs to P, and every other
light is RED; the claimed safety consequence does not hold in general because
the enumerated combinations can contain conflicting pairs. -/
theorem claimC3_amended (j : Junction) (comb : List Nat) (tl : TrafficLight)
    (h : tl ∈ (activateCombination j comb).trafficLights) :
    tl.state = true ↔ tl.id ∈ comb := by
  unfold activateCombination at h
  obtain ⟨tl0, _, rfl⟩ := List.mem_map.mp h
  by_cases hc : comb.contains tl0.id = true
  · rw [if_pos hc]
    simpa using hc
  · rw [if_neg hc]
    simpa using hc

/-- Claim C3 (amended) witness: activating phase [1] on the four-light
junction turns light 1 green, and its state matches membership in the phase. -/
theorem claimC3_amended_witness :
    ({ id := 1, origins := [10], destinations := [50], state := true,
        isYellow := false } : TrafficLight).state = true ↔
      (1 : Nat) ∈ ([1] : List Nat) :=
  claimC3_amended Jcex [1] _ (by decide)

/-- Claim C4 counterexample: a phase tracking no vehicles gets score 0 from
`_compute_phase_scores` even when the fairness term is positive, so the
claimed formula fails. -/
theorem claimC4_counterexample :
    ¬ (∀ (t : ℚ) (lastServed : List (List Nat × ℚ))
        (waitTimes : List (List Nat × List (Nat × ℚ)))
        (p : List Nat × List (Nat × ℚ)), p ∈ waitTimes →
          SmartController.phaseScoreEntry 1 5 1 t lastServed p.1 p.2 =
            1 * (p.2.map Prod.snd).sum + 5 * (p.2.length : ℚ) +
              1 * (t - ((lastServed.lookup p.1).getD t))) := by
  intro h
  have h0 := h 1 [([1], 0)] [([1], [])] ([1], []) (List.mem_singleton.mpr rfl)
  norm_num [SmartController.phaseScoreEntry, List.lookup] at h0

/-- Claim C4 (amended): with the reference tunables α = 1, β = 5, γ = 1, the
score computed by `_compute_phase_scores` for a phase with at least one
tracked vehicle is α·Σwait + β·count + γ·(t − last_served[P]); a phase with no
tracked vehicles scores 0 instead. -/
theorem claimC4_amended (t : ℚ) (lastServed : List (List Nat × ℚ))
    (waitTimes : List (List Nat × List (Nat × ℚ)))
    (p : List Nat × List (Nat × ℚ)) (hp : p ∈ waitTimes) :
    (p.2 ≠ [] →
      (p.1, 1 * (p.2.map Prod.snd).sum + 5 * (p.2.length : ℚ) +
          1 * (t - ((lastServed.lookup p.1).getD t))) ∈
        SmartController.computePhaseScores 1 5 1 t waitTimes lastServed) ∧
    (p.2 = [] →
      (p.1, (0 : ℚ)) ∈
        SmartController.computePhaseScores 1 5 1 t waitTimes lastServed) := by
  constructor
  · intro hne
    have hentry : SmartController.phaseScoreEntry 1 5 1 t lastServed p.1 p.2 =
        1 * (p.2.map Prod.snd).sum + 5 * (p.2.length : ℚ) +
          1 * (t - ((lastServed.lookup p.1).getD t)) := by
      unfold SmartController.phaseScoreEntry
      rw [if_neg (fun h0 => hne (List.length_eq_zero.mp h0))]
    rw [← hentry]
    exact List.mem_map_of_mem _ hp
  · intro he
    have hentry : SmartController.phaseScoreEntry 1 5 1 t lastServed p.1 p.2 = 0 := by
      unfold SmartController.phaseScoreEntry
      rw [if_pos (by simp [he])]
    rw [← hentry]
    exact List.mem_map_of_mem _ hp

/-- Claim C4 (amended) witness: a phase with one tracked vehicle scores the
formula; the instantiating phase map holds one phase [1] with one vehicle of
accumulated wait 2, last served at time 0, current time 3. -/
theorem claimC4_amended_witness :
    (([1], [(5, (2 : ℚ))]) : List Nat × List (Nat × ℚ)).2 ≠ [] ∧
      (([1] : List Nat), (1 * ((2 : ℚ)) + 5 * (1 : ℚ) + 1 * ((3 : ℚ) - 0))) ∈
        SmartController.computePhaseScores 1 5 1 3 [([1], [(5, 2)])] [([1], 0)] := by
  refine ⟨by simp, ?_⟩
  have h := (claimC4_amended 3 [([1], 0)] [([1], [(5, 2)])] ([1], [(5, 2)])
    (List.mem_singleton.mpr rfl)).1 (by simp)
  simpa [List.lookup] using h

/-- Claim C5: whenever a current phase exists, the argmax phase differs from
it, and the score difference is below the hysteresis threshold, the selection
step keeps the current phase. -/
theorem claimC5_hysteresis (scores : List (List Nat × ℚ)) (cur b : List Nat)
    (sb sc threshold : ℚ)
    (hmax : SmartController.argmaxFirst scores = some (b, sb))
    (hne : b ≠ cur) (hcur : scores.lookup cur = some sc)
    (hlt : sb - sc < threshold) :
    SmartController.chooseCombination scores (some cur) threshold = some cur := by
  unfold SmartController.chooseCombination
  rw [hmax]
  simp only [hcur, Option.getD_some]
  rw [if_pos ⟨hne, hlt⟩]

/-- Claim C5 witness: with scores {[1] ↦ 0, [2] ↦ 5}, current phase [1] and
threshold 10, the selection keeps [1]. -/
theorem claimC5_witness :
    SmartController.chooseCombination [([1], (0 : ℚ)), ([2], 5)] (some [1]) 10 =
      some [1] :=
  claimC5_hysteresis [([1], (0 : ℚ)), ([2], 5)] [1] [2] 5 0 10 (by decide)
    (by decide) (by decide) (by norm_num)

end TrafficSim

namespace TrafficSim

/-- Claim C6: `__check_if_green` returns `True` only for a lane listed among
the origins of a light whose state is green and whose amber flag is off, and a
vehicle facing a non-green light at distance 5 ≤ d < 40 gets desired velocity
0 — an amber light is therefore treated exactly as RED by the kinematic
model. -/
theorem claimC6_amber_is_red (lane : Lane) (j : Junction) :
    (Sim.checkIfGreen lane j = true ↔
      ∃ tl ∈ j.trafficLights,
        lane.id ∈ tl.origins ∧ tl.state = true ∧ tl.isYellow = false) ∧
    (∀ (velocity dist : ℚ) (gap : Option ℚ) (sDist : ℚ),
      Sim.checkIfGreen lane j = false → 5 ≤ dist → dist < 40 →
      Sim.desiredVelocity lane (Sim.checkIfGreen lane j) dist velocity gap sDist = 0) := by
  constructor
  · unfold Sim.checkIfGreen
    simp only [List.any_eq_true, Bool.and_eq_true, Bool.not_eq_true',
      List.elem_iff, and_assoc]
  · intro v d gap sDist hg h5 h40
    rw [hg]
    unfold Sim.desiredVelocity
    rw [if_pos (And.intro rfl (And.intro h5 h40))]

/-- Claim C6 witness: the amber light of `Jamber` is green-with-amber, the
lane is treated as not green, and the desired velocity at distance 20 is 0. -/
theorem claimC6_witness :
    Sim.desiredVelocity laneAmber (Sim.checkIfGreen laneAmber Jamber) 20 50 none 60 = 0 :=
  (claimC6_amber_is_red laneAmber Jamber).2 50 20 none 60 (by decide)
    (by norm_num) (by norm_num)

/-- `set_all_lights_red` is idempotent. -/
theorem setAllLightsRed_idem (l : List TrafficLight) :
    Sim.setAllLightsRed (Sim.setAllLightsRed l) = Sim.setAllLightsRed l := by
  induction l with
  | nil => rfl
  | cons tl rest ih =>
    unfold Sim.setAllLightsRed at ih ⊢
    simp only [List.map_cons]
    rw [ih]

/-- Claim C7 counterexample: on the very first failed exchange the previous
light state is not retained — all lights go RED at once — and a later
successful exchange does not resume the server's light states because the
failure flag is never cleared. -/
theorem claimC7_counterexample :
    (Sim.runTickLights ⟨[greenLight], false⟩ false [greenLight]).lights ≠ [greenLight] ∧
    (Sim.runTickLights ⟨[greenLight], false⟩ false [greenLight]).clientFailed = true ∧
    (Sim.runTickLights ⟨Sim.setAllLightsRed [greenLight], true⟩ true
        [greenLight]).lights ≠ [greenLight] := by
  decide

/-- Claim C7 (amended): the first failed exchange already forces every light
RED and latches the failure flag; once the flag is set, every later tick
keeps forcing all lights RED regardless of whether exchanges succeed, so the
controller's decisions are never resumed. -/
theorem claimC7_amended (st : Sim.SimLightsState) (exchangeOk : Bool)
    (serverLights : List TrafficLight) :
    (st.clientFailed = false → exchangeOk = false →
      Sim.runTickLights st exchangeOk serverLights =
        ⟨Sim.setAllLightsRed st.lights, true⟩) ∧
    (st.clientFailed = true →
      Sim.runTickLights st exchangeOk serverLights =
        ⟨Sim.setAllLightsRed st.lights, true⟩) := by
  obtain ⟨lights, failed⟩ := st
  constructor
  · intro hf hx
    simp only at hf hx
    subst hf
    subst hx
    simp [Sim.runTickLights, setAllLightsRed_idem]
  · intro hf
    simp only at hf
    subst hf
    simp [Sim.runTickLights]

/-- Claim C7 (amended) witness: from a healthy state with one green light, a
failed exchange forces red and latches the flag. -/
theorem claimC7_amended_witness :
    Sim.runTickLights ⟨[greenLight], false⟩ false [] =
      ⟨Sim.setAllLightsRed [greenLight], true⟩ :=
  (claimC7_amended ⟨[greenLight], false⟩ false []).1 rfl rfl

/-- Claim C8: for vehicles inside the junction, the collision predicate holds
exactly when the origin roads differ and the destination roads are either
perpendicular (to-side values summing odd) or identical. -/
theorem claimC8_collision (j : Junction) (car1 car2 : Car)
    (h1 : Sim.isCarInJunction j car1 = true)
    (h2 : Sim.isCarInJunction j car2 = true) :
    Sim.doesCollide j car1 car2 = true ↔
      (car1.origin / 10 % 10 ≠ car2.origin / 10 % 10 ∧
        (((j.roadToSideD (j.id * 10 + car1.dest / 10 % 10)).val +
            (j.roadToSideD (j.id * 10 + car2.dest / 10 % 10)).val) % 2 = 1 ∨
          car1.dest / 10 % 10 = car2.dest / 10 % 10)) := by
  unfold Sim.doesCollide
  by_cases ho : car1.origin / 10 % 10 ≠ car2.origin / 10 % 10
  · rw [if_pos ho]
    by_cases hp : ((j.roadToSideD (j.id * 10 + car1.dest / 10 % 10)).val +
        (j.roadToSideD (j.id * 10 + car2.dest / 10 % 10)).val) % 2 = 1
    · rw [if_pos (by simpa using hp)]
      simp [ho, hp]
    · rw [if_neg (by simpa using hp)]
      by_cases hd : car1.dest / 10 % 10 = car2.dest / 10 % 10
      · rw [if_pos (by simpa using hd)]
        simp [ho, hp, hd]
      · rw [if_neg (by simpa using hd)]
        simp [ho, hp, hd]
  · rw [if_neg ho]
    simp [ho]

/-- Claim C8 witness: two cars inside the four-road junction coming from
different roads toward perpendicular destination roads collide. -/
theorem claimC8_witness :
    Sim.doesCollide Jcol carA carB = true ↔
      (carA.origin / 10 % 10 ≠ carB.origin / 10 % 10 ∧
        (((Jcol.roadToSideD (Jcol.id * 10 + carA.dest / 10 % 10)).val +
            (Jcol.roadToSideD (Jcol.id * 10 + carB.dest / 10 % 10)).val) % 2 = 1 ∨
          carA.dest / 10 % 10 = carB.dest / 10 % 10)) :=
  claimC8_collision Jcol carA carB
    (by
      have hid : Jcol.id = 1 := rfl
      have ha : Jcol.getRoadById 11 = some ⟨11, [emptyLane 111], .SOUTH, .NORTH⟩ := rfl
      have hb : Jcol.getRoadById 12 = some ⟨12, [emptyLane 121], .NORTH, .SOUTH⟩ := rfl
      have hc : Jcol.getRoadById 13 = some ⟨13, [emptyLane 131], .WEST, .EAST⟩ := rfl
      have hd : Jcol.getRoadById 14 = some ⟨14, [emptyLane 141], .EAST, .WEST⟩ := rfl
      norm_num [Sim.isCarInJunction, hid, ha, hb, hc, hd, carA])
    (by
      have hid : Jcol.id = 1 := rfl
      have ha : Jcol.getRoadById 11 = some ⟨11, [emptyLane 111], .SOUTH, .NORTH⟩ := rfl
      have hb : Jcol.getRoadById 12 = some ⟨12, [emptyLane 121], .NORTH, .SOUTH⟩ := rfl
      have hc : Jcol.getRoadById 13 = some ⟨13, [emptyLane 131], .WEST, .EAST⟩ := rfl
      have hd : Jcol.getRoadById 14 = some ⟨14, [emptyLane 141], .EAST, .WEST⟩ := rfl
      norm_num [Sim.isCarInJunction, hid, ha, hb, hc, hd, carB])

end TrafficSim

namespace TrafficSim

/-- Claim C10 counterexample: a vehicle on an uncontrolled lane 6 units from
the stop line at velocity 120 brakes for one tick, escapes the 5 ≤ d < 40
window while still moving, accelerates again, and crosses into the junction
(d < 0) at velocity 100 — it is not brought to a stop before the junction. -/
theorem claimC10_counterexample :
    ¬ Sim.StoppedBeforeJunction (1 / 30) laneFast JnoLights carFast := by
  have hkey : (Sim.iterCar (1 / 30) laneFast JnoLights carFast 2).dist < 0 ∧
      (Sim.iterCar (1 / 30) laneFast JnoLights carFast 2).velocity = 100 := by
    norm_num [Sim.iterCar, Sim.stepCar, Sim.moveCarKinematics, Sim.desiredVelocity,
      Sim.checkIfGreen, Sim.distanceToCarAhead, Sim.safeDistance, Lane.maxDecel,
      Lane.maxAccel, laneFast, JnoLights, carFast]
  intro h
  have h0 := h 2 hkey.1
  rw [h0] at hkey
  exact absurd hkey.2 (by norm_num)

/-- Claim C10 (amended): a lane not listed among the origins of any traffic
light is treated as facing a RED light (`__check_if_green` returns `False`),
so a vehicle on it inside the window 5 ≤ d < 40 gets desired velocity 0, and
each tick taken from inside the window reduces its velocity to
`max (v − max_decel·Δt) 0`; a vehicle that leaves the window (d < 5) before
reaching velocity 0 is not guaranteed to stop before the junction. -/
theorem claimC10_amended (timeStep : ℚ) (lane : Lane) (j : Junction) (car : Car)
    (hun : ∀ tl ∈ j.trafficLights, lane.id ∉ tl.origins)
    (ht : 0 < timeStep) (hv : 0 ≤ car.velocity) (hmv : 0 ≤ lane.maxVel)
    (h5 : 5 ≤ car.dist) (h40 : car.dist < 40) :
    Sim.checkIfGreen lane j = false ∧
    Sim.desiredVelocity lane (Sim.checkIfGreen lane j) car.dist car.velocity
      (Sim.distanceToCarAhead lane car) (Sim.safeDistance lane car.velocity) = 0 ∧
    (Sim.stepCar timeStep lane j car).velocity =
      max (car.velocity - lane.maxDecel * timeStep) 0 := by
  have hgreen : Sim.checkIfGreen lane j = false := by
    unfold Sim.checkIfGreen
    rw [List.any_eq_false]
    intro tl htl
    have hmem := hun tl htl
    simp [hmem]
  have hdes : ∀ (gap : Option ℚ) (sDist : ℚ),
      Sim.desiredVelocity lane false car.dist car.velocity gap sDist = 0 := by
    intro gap sDist
    unfold Sim.desiredVelocity
    rw [if_pos (And.intro rfl (And.intro h5 h40))]
  refine ⟨hgreen, by rw [hgreen]; exact hdes _ _, ?_⟩
  unfold Sim.stepCar Sim.moveCarKinematics
  simp only [hgreen, hdes]
  have hne : timeStep ≠ 0 := ne_of_gt ht
  have hdivnp : (0 - car.velocity) / timeStep ≤ 0 :=
    div_nonpos_of_nonpos_of_nonneg (by linarith) (le_of_lt ht)
  have haccnn : (0 : ℚ) ≤ lane.maxAccel := by
    unfold Lane.maxAccel
    linarith
  rw [min_eq_left (le_trans hdivnp haccnn)]
  rw [max_mul_of_nonneg _ _ (le_of_lt ht)]
  rw [div_mul_cancel₀ _ hne]
  rw [← max_add_add_left]
  have h1 : car.velocity + -lane.maxDecel * timeStep =
      car.velocity - lane.maxDecel * timeStep := by ring
  have h2 : car.velocity + (0 - car.velocity) = 0 := by ring
  rw [h1, h2]

/-- Claim C10 (amended) witness: on the light-free junction, the fast car at
distance 6 and velocity 120 faces a red-equivalent lane, has desired velocity
0, and one tick brakes it to `max (120 − 300/30) 0 = 110`. -/
theorem claimC10_amended_witness :
    Sim.checkIfGreen laneFast JnoLights = false ∧
    Sim.desiredVelocity laneFast (Sim.checkIfGreen laneFast JnoLights) carFast.dist
      carFast.velocity (Sim.distanceToCarAhead laneFast carFast)
      (Sim.safeDistance laneFast carFast.velocity) = 0 ∧
    (Sim.stepCar (1 / 30) laneFast JnoLights carFast).velocity =
      max (carFast.velocity - laneFast.maxDecel * (1 / 30)) 0 :=
  claimC10_amended (1 / 30) laneFast JnoLights carFast (by simp [JnoLights])
    (by norm_num) (by norm_num [carFast]) (by norm_num [laneFast])
    (by norm_num [carFast]) (by norm_num [carFast])

end TrafficSim